import Mathlib

/-!
Shallow embedding of the OpenChat plugin core (installation registry,
context resolver, event router helpers, identity mapper, user directory
cache), with theorems checking the natural-language specification.

Sources embedded:
- `src/utils/openchatIds.ts` (identity mapper)
- `src/services/openchatClient.ts` (installation registry, metadata builders)
- `src/actions/openChatActionContext.ts` (context resolver)
- `src/services/openchatMessageManager.ts` (message event guards)
- notify handler (event router, rejection filtering, member-joined welcome)
- user directory (TTL profile cache, batch principal lookup)
-/

namespace OpenChatPlugin

/-! ## String helpers

`jsTrim` models JavaScript `String.prototype.trim` (drop leading and
trailing whitespace); `containsSub` models `String.prototype.includes`. -/

def isWS (c : Char) : Bool := c.isWhitespace

/-- Model of JS `trim()`: drop leading whitespace, then trailing whitespace. -/
def jsTrim (s : String) : String :=
  ⟨(s.data.dropWhile isWS).rdropWhile isWS⟩

/-- Model of JS `includes(needle)`: substring containment. -/
def containsSub (needle hay : String) : Bool :=
  decide (needle.data <:+: hay.data)

/-! ## Ordered map

JavaScript `Map` semantics: insertion order is preserved, `set` on an
existing key updates the value in place, `delete` removes the key,
`entries().next()` yields the first entry in insertion order. -/

abbrev OCMap (α : Type) : Type := List (String × α)

namespace OCMap

def get {α : Type} (m : OCMap α) (k : String) : Option α :=
  (List.find? (fun p => p.1 == k) m).map (·.2)

def hasKey {α : Type} (m : OCMap α) (k : String) : Bool :=
  (List.find? (fun p => p.1 == k) m).isSome

def set {α : Type} (m : OCMap α) (k : String) (v : α) : OCMap α :=
  if List.any m (fun p => p.1 == k) then
    List.map (fun p => if p.1 == k then (k, v) else p) m
  else
    m ++ [(k, v)]

def erase {α : Type} (m : OCMap α) (k : String) : OCMap α :=
  List.filter (fun p => p.1 != k) m

def firstEntry {α : Type} (m : OCMap α) : Option (String × α) :=
  List.head? m

def isEmpty {α : Type} (m : OCMap α) : Bool :=
  List.isEmpty m

end OCMap

/-! ## Data model

`InstallationLocation` mirrors the three identifier classes the plugin
receives (`CommunityIdentifier`, `GroupChatIdentifier`,
`DirectChatIdentifier`); `locationKind` is the library's `kind` tag. -/

inductive InstallationLocation : Type
  | community (communityId : String)
  | group (groupId : String)
  | direct (userId : String)
  deriving DecidableEq, Repr

def locationKind : InstallationLocation → String
  | .community _ => "community"
  | .group _ => "group_chat"
  | .direct _ => "direct_chat"

/-- Permission grants are opaque payloads for the core; only the message
bitmask is ever inspected (for logging). -/
structure Permissions where
  messageMask : Nat
  deriving DecidableEq, Repr

/-- `InstallationRecord` from the botclient library, as constructed in the
install handler: gateway plus the two permission grants. -/
structure InstallationRecord where
  apiGateway : String
  grantedCommandPermissions : Permissions
  grantedAutonomousPermissions : Permissions
  deriving DecidableEq, Repr

inductive ActionScope : Type
  | communityScope (location : InstallationLocation)
  | chatScope (location : InstallationLocation)
  deriving DecidableEq, Repr

/-- `OpenChatInstallation` (types/index.ts). -/
structure OpenChatInstallation where
  location : InstallationLocation
  scope : ActionScope
  record : InstallationRecord
  deriving DecidableEq, Repr

/-- `OpenChatMessageMetadata` (types/index.ts).  Candidate metadata objects
are cast from untyped values, so fields consumed through nullish checks
(`??`) are `Option`; `locationKey` is only ever consumed through JS
truthiness tests, under which the empty string and `undefined` coincide,
so it is a plain `String` with `""` standing for "absent". -/
structure OpenChatMessageMetadata where
  chatKind : String
  chatId : String
  locationKey : String
  roomKey : String
  messageId : Option String
  threadId : Option Nat
  replyToMessageId : Option String
  apiGateway : Option String
  deriving DecidableEq, Repr

/-! ## Installation Registry (`openchatClient.ts`) -/

/-- `getLocationKey` (openchatClient.ts lines 342-350). -/
def getLocationKey : InstallationLocation → String
  | .community communityId => "community:" ++ communityId
  | .group groupId => "group:" ++ groupId
  | .direct userId => "direct:" ++ userId

/-- `scopeFromLocation` (openchatClient.ts lines 352-357). -/
def scopeFromLocation (location : InstallationLocation) : ActionScope :=
  if locationKind location = "community" then
    ActionScope.communityScope location
  else
    ActionScope.chatScope location

abbrev Registry := OCMap OpenChatInstallation

/-- `recordInstallation` (openchatClient.ts lines 232-241). -/
def recordInstallation (m : Registry) (location : InstallationLocation)
    (record : InstallationRecord) : Registry :=
  let scope := scopeFromLocation location
  let key := getLocationKey location
  OCMap.set m key { location := location, scope := scope, record := record }

/-- `recordUninstallation` (openchatClient.ts lines 246-250). -/
def recordUninstallation (m : Registry) (location : InstallationLocation) : Registry :=
  OCMap.erase m (getLocationKey location)

/-- `getChatKindFromLocation` (openchatClient.ts lines 388-397). -/
def getChatKindFromLocation (location : InstallationLocation) : String :=
  if locationKind location = "direct_chat" then "direct"
  else if locationKind location = "group_chat" then "group"
  else "channel"

/-- `describeLocation` (openchatClient.ts lines 399-410). -/
def describeLocation : InstallationLocation → String
  | .community communityId => communityId
  | .group groupId => groupId
  | .direct userId => userId

/-- `getRoomKeyFromLocation` (openchatClient.ts lines 412-415). -/
def getRoomKeyFromLocation (location : InstallationLocation) (thread : Option Nat) : String :=
  let base := describeLocation location
  match thread with
  | some t => base ++ ":" ++ toString t
  | none => base

/-- `buildMetadataFromInstallation` (openchatClient.ts lines 259-275).
Every field of the result is populated; override fields are consumed with
`??` (nullish coalescing), modelled by `Option.getD`-style matches. -/
def buildMetadataFromInstallation (locationKey : String)
    (installation : OpenChatInstallation)
    (overrides : Option OpenChatMessageMetadata) : OpenChatMessageMetadata :=
  { chatKind := getChatKindFromLocation installation.location
    chatId := describeLocation installation.location
    locationKey := locationKey
    roomKey := getRoomKeyFromLocation installation.location (overrides.bind (·.threadId))
    messageId := some ((overrides.bind (·.messageId)).getD "")
    apiGateway := some ((overrides.bind (·.apiGateway)).getD installation.record.apiGateway)
    threadId := overrides.bind (·.threadId)
    replyToMessageId := overrides.bind (·.replyToMessageId) }

/-! ## Context resolver (`openChatActionContext.ts`)

The resolver reads three candidate metadata sources.  Each access path
(`options.openchatMetadata`, `options.metadata.openchat`,
`state.openchat.metadata`, `message.metadata.openchat`,
`options.openchat.locationKey`, `state.openchat.locationKey`) is a chain
of optional lookups on untyped values, modelled as an `Option` field. -/

structure OptionsInput where
  openchatMetadata : Option OpenChatMessageMetadata
  metadataOpenchat : Option OpenChatMessageMetadata
  openchatLocationKey : Option String
  deriving DecidableEq, Repr

structure StateInput where
  openchatMetadata : Option OpenChatMessageMetadata
  openchatLocationKey : Option String
  deriving DecidableEq, Repr

structure MessageInput where
  openchatMetadata : Option OpenChatMessageMetadata
  deriving DecidableEq, Repr

/-- `extractMetadata` (openChatActionContext.ts lines 13-36): collect the
candidates in priority order (options first — `openchatMetadata` or else
`metadata.openchat` —, then state, then the message's own metadata) and
return the first whose `locationKey` is truthy (non-empty). -/
def extractMetadata (message : MessageInput) (state : StateInput)
    (options : OptionsInput) : Option OpenChatMessageMetadata :=
  let fromOptions : List OpenChatMessageMetadata :=
    match options.openchatMetadata with
    | some m => [m]
    | none =>
      match options.metadataOpenchat with
      | some m => [m]
      | none => []
  let fromState : List OpenChatMessageMetadata :=
    match state.openchatMetadata with
    | some m => [m]
    | none => []
  let fromMessage : List OpenChatMessageMetadata :=
    match message.openchatMetadata with
    | some m => [m]
    | none => []
  List.find? (fun c => c.locationKey != "") (fromOptions ++ fromState ++ fromMessage)

/-- The arguments with which the resolver constructs the autonomous bot
client (`createClientForScope(installation.scope,
installation.record.apiGateway, installation.record.grantedAutonomousPermissions)`). -/
structure ClientSpec where
  scope : ActionScope
  apiGatewayUrl : String
  permissions : Permissions
  deriving DecidableEq, Repr

structure OpenChatResolvedContext where
  metadata : OpenChatMessageMetadata
  installation : OpenChatInstallation
  locationKey : String
  client : ClientSpec
  deriving DecidableEq, Repr

/-- The object-spread merge `{ ...metadata, ...built, locationKey }` of
openChatActionContext.ts lines 92-96.  `built` is produced by
`buildMetadataFromInstallation`, which populates every field of the
metadata interface, so the spread keeps none of `metadata`'s own fields
directly; explicit fields survive only through the `overrides` parameter
of `buildMetadataFromInstallation`. -/
def spreadMergeMetadata (_found built : OpenChatMessageMetadata)
    (locationKey : String) : OpenChatMessageMetadata :=
  { chatKind := built.chatKind
    chatId := built.chatId
    locationKey := locationKey
    roomKey := built.roomKey
    messageId := built.messageId
    threadId := built.threadId
    replyToMessageId := built.replyToMessageId
    apiGateway := built.apiGateway }

/-- `resolveOpenChatContext` (openChatActionContext.ts lines 38-106).
`service` is `none` when the runtime has no "openchat" service. -/
def resolveOpenChatContext (service : Option Registry) (message : MessageInput)
    (state : StateInput) (options : OptionsInput) : Option OpenChatResolvedContext :=
  match service with
  | none => none
  | some installations =>
    if OCMap.isEmpty installations then none
    else
      let metadata := extractMetadata message state options
      -- step 1: the found candidate's location key, if it resolves
      let fromMetadata : Option (String × OpenChatInstallation) :=
        match metadata with
        | some m =>
          if m.locationKey != "" then
            match OCMap.get installations m.locationKey with
            | some inst => some (m.locationKey, inst)
            | none => none
          else none
        | none => none
      -- step 2: the preferred location key from options/state
      let afterPreferred : Option (String × OpenChatInstallation) :=
        match fromMetadata with
        | some r => some r
        | none =>
          match options.openchatLocationKey.orElse (fun _ => state.openchatLocationKey) with
          | some preferredKey =>
            if preferredKey != "" && OCMap.hasKey installations preferredKey then
              match OCMap.get installations preferredKey with
              | some inst => some (preferredKey, inst)
              | none => none
            else none
          | none => none
      -- step 3: first installation in insertion order
      let chosen : Option (String × OpenChatInstallation) :=
        match afterPreferred with
        | some r => some r
        | none => OCMap.firstEntry installations
      match chosen with
      | none => none
      | some (locationKey, installation) =>
        -- `if (!installation || !locationKey) return undefined`
        if locationKey = "" then none
        else
          let finalMetadata :=
            match metadata with
            | none => buildMetadataFromInstallation locationKey installation none
            | some m =>
              if m.locationKey = "" then
                spreadMergeMetadata m
                  (buildMetadataFromInstallation locationKey installation (some m))
                  locationKey
              else m
          some { metadata := finalMetadata
                 installation := installation
                 locationKey := locationKey
                 client := { scope := installation.scope
                             apiGatewayUrl := installation.record.apiGateway
                             permissions := installation.record.grantedAutonomousPermissions } }

/-! ## Notification rejection filtering (notify handler)

The rejection callback receives `{ error }` where `error` may be a string,
an `Error` object, something else (stringified with `JSON.stringify`), or
absent.  For the "something else" case the model carries the
already-stringified JSON text, since the callback only ever uses that. -/

inductive FailureError : Type
  | str (s : String)
  | errObj (message : String)
  | otherJson (json : String)
  | absent
  deriving DecidableEq, Repr

structure NotifyFailure where
  error : FailureError
  deriving DecidableEq, Repr

/-- The `errorMessage` computation in the rejection callback:
string errors pass through, `Error` objects contribute their message,
anything else is JSON-stringified (`JSON.stringify("Unknown error")`
yields the quoted string when the error is absent). -/
def rejectionErrorMessage (failure : NotifyFailure) : String :=
  match failure.error with
  | .str s => s
  | .errObj message => message
  | .otherJson json => json
  | .absent => "\"Unknown error\""

/-- Outcome of the rejection callback: `none` means the rejection was
swallowed (callback returns), `some reason` means an error with message
`reason` was thrown. -/
def rejectionOutcome (failure : NotifyFailure) : Option String :=
  let errorMessage := rejectionErrorMessage failure
  if errorMessage = "Invalid scope" then none
  else
    -- re-throw the original Error, or wrap the message in a new Error;
    -- either way the raised error's message is `errorMessage`
    some errorMessage

/-! ## User directory (TTL profile cache) -/

structure OpenChatUserProfile where
  userId : String
  username : Option String
  displayName : Option String
  deriving DecidableEq, Repr

structure CachedProfile where
  profile : OpenChatUserProfile
  expiresAt : Nat
  deriving DecidableEq, Repr

def DEFAULT_CACHE_TTL_MS : Nat := 1000 * 60 * 15

/-- `cacheKey` of the user directory. -/
def cacheKey (apiGateway userId : String) : String := apiGateway ++ ":" ++ userId

/-- Directory construction: `cacheTtlMs ?? DEFAULT_CACHE_TTL_MS`. -/
def directoryTtl (cacheTtlMs : Option Nat) : Nat :=
  cacheTtlMs.getD DEFAULT_CACHE_TTL_MS

/-- Result of one `getProfile` call: the returned profile, the cache after
the call, and whether a remote lookup was performed. -/
structure GetProfileResult where
  result : Option OpenChatUserProfile
  cache : OCMap CachedProfile
  remoteCalled : Bool
  deriving DecidableEq, Repr

/-- Outcome of `lookupProfiles([userId])` as observed by `getProfile`:
either a thrown error, or the first element (if any) of the returned
profile list. -/
inductive LookupOutcome : Type
  | threw (message : String)
  | returned (firstProfile : Option OpenChatUserProfile)
  deriving DecidableEq, Repr

/-- `OpenChatUserDirectory.getProfile`.  `storageIndexCanisterId` is the
configured default scope, `now` is `Date.now()`, `remote` the outcome of
the remote batch lookup (consulted only when actually performed). -/
def getProfile (cache : OCMap CachedProfile) (ttlMs : Nat)
    (storageIndexCanisterId : String) (apiGateway : Option String)
    (userId : String) (now : Nat) (remote : LookupOutcome) : GetProfileResult :=
  if apiGateway.getD storageIndexCanisterId = "" || userId = "" then
    { result := none, cache := cache, remoteCalled := false }
  else
    match OCMap.get cache (cacheKey (apiGateway.getD storageIndexCanisterId) userId) with
    | some cached =>
      if cached.expiresAt > now then
        { result := some cached.profile, cache := cache, remoteCalled := false }
      else
        match remote with
        | .threw _ => { result := none, cache := cache, remoteCalled := true }
        | .returned none => { result := none, cache := cache, remoteCalled := true }
        | .returned (some profile) =>
          { result := some profile
            cache := OCMap.set cache (cacheKey (apiGateway.getD storageIndexCanisterId) userId)
              { profile := profile, expiresAt := now + ttlMs }
            remoteCalled := true }
    | none =>
      match remote with
      | .threw _ => { result := none, cache := cache, remoteCalled := true }
      | .returned none => { result := none, cache := cache, remoteCalled := true }
      | .returned (some profile) =>
        { result := some profile
          cache := OCMap.set cache (cacheKey (apiGateway.getD storageIndexCanisterId) userId)
            { profile := profile, expiresAt := now + ttlMs }
          remoteCalled := true }

/-! ## User directory batch lookup (`lookupProfiles`) -/

/-- A raw principal in the remote response: textual or binary. -/
inductive RawPrincipal : Type
  | text (s : String)
  | bytes (b : List Nat)
  deriving DecidableEq, Repr

structure RawUserSummary where
  userId : RawPrincipal
  username : Option String
  displayName : Option String
  deriving DecidableEq, Repr

/-- Remote `users_msgpack` query outcome: rejected, or replied with a
decoded response (`none` models a reply without a `Success` payload). -/
inductive QueryOutcome : Type
  | rejected
  | replied (success : Option (List RawUserSummary))
  deriving DecidableEq, Repr

/-- `principalToText`: strings pass through; byte principals go through
the external principal codec `decodeBytes` (`none` = decoding threw). -/
def principalToText (decodeBytes : List Nat → Option String)
    (value : RawPrincipal) : Option String :=
  match value with
  | .text s => some s
  | .bytes b => decodeBytes b

/-- `mapSummary`: summaries whose principal cannot be decoded are dropped. -/
def mapSummary (decodeBytes : List Nat → Option String)
    (summary : RawUserSummary) : Option OpenChatUserProfile :=
  match principalToText decodeBytes summary.userId with
  | none => none
  | some userId =>
    some { userId := userId
           username := summary.username
           displayName := summary.displayName }

/-- Result of `lookupProfiles`: the outcome (thrown error or profile
list), and the batch of encoded principals sent to the remote service
(`none` = no remote query was issued). -/
structure LookupProfilesResult where
  outcome : Except String (List OpenChatUserProfile)
  queriedBatch : Option (List (List Nat))
  deriving Repr

/-- `OpenChatUserDirectory.lookupProfiles`.  `principalToBytes` is the
external principal codec wrapped in try/catch (`none` = invalid id,
logged and dropped).  `remote` is the transport outcome, consulted only
when a query is actually issued. -/
def lookupProfiles (principalToBytes : String → Option (List Nat))
    (decodeBytes : List Nat → Option String) (storageIndexCanisterId : String)
    (userIds : List String) (remote : QueryOutcome) : LookupProfilesResult :=
  let normalizedIds := userIds.filterMap principalToBytes
  if normalizedIds.isEmpty then
    { outcome := Except.ok [], queriedBatch := none }
  else
    match remote with
    | .rejected =>
      { outcome := Except.error
          ("User directory query was rejected for " ++ storageIndexCanisterId)
        queriedBatch := some normalizedIds }
    | .replied none =>
      { outcome := Except.ok [], queriedBatch := some normalizedIds }
    | .replied (some users) =>
      { outcome := Except.ok (users.filterMap (mapSummary decodeBytes))
        queriedBatch := some normalizedIds }

/-! ## Identity mapper (`openchatIds.ts`)

`uuid.v5` computes SHA-1 over the namespace bytes followed by the UTF-8
bytes of the name, keeps the first 16 bytes, stamps the version and
variant nibbles, and renders lowercase hex with dashes.  The hash is
implemented concretely so that identifier values can be evaluated. -/

def UINT32_MOD : Nat := 4294967296

def rotl32 (n w : Nat) : Nat :=
  ((w <<< n) % UINT32_MOD) ||| (w >>> (32 - n))

/-- SHA-1 padding: append `0x80`, zero bytes up to 56 mod 64, and the
64-bit big-endian bit length. -/
def sha1Pad (msg : List Nat) : List Nat :=
  let len := msg.length
  let zeros := (119 - len % 64) % 64
  let bitLen := len * 8
  msg ++ [128] ++ List.replicate zeros 0 ++
    [bitLen >>> 56 % 256, bitLen >>> 48 % 256, bitLen >>> 40 % 256,
     bitLen >>> 32 % 256, bitLen >>> 24 % 256, bitLen >>> 16 % 256,
     bitLen >>> 8 % 256, bitLen % 256]

/-- Group bytes into big-endian 32-bit words. -/
def bytesToWords : List Nat → List Nat
  | b0 :: b1 :: b2 :: b3 :: rest =>
    (((b0 * 256 + b1) * 256 + b2) * 256 + b3) :: bytesToWords rest
  | _ => []

/-- Split a word list into 16-word blocks (the fuel argument only bounds
the recursion; `toBlocks` supplies the list length, which suffices since
each step consumes 16 ≥ 1 elements). -/
def toBlocksFuel : Nat → List Nat → List (List Nat)
  | 0, _ => []
  | _, [] => []
  | n + 1, ws => ws.take 16 :: toBlocksFuel n (ws.drop 16)

def toBlocks (ws : List Nat) : List (List Nat) :=
  toBlocksFuel ws.length ws

def sha1ExpandStep (w : Array Nat) : Array Nat :=
  let n := w.size
  w.push (rotl32 1 ((((w.getD (n - 3) 0) ^^^ (w.getD (n - 8) 0)) ^^^
    (w.getD (n - 14) 0)) ^^^ (w.getD (n - 16) 0)))

def sha1Expand : Nat → Array Nat → Array Nat
  | 0, w => w
  | n + 1, w => sha1Expand n (sha1ExpandStep w)

def sha1F (i b c d : Nat) : Nat :=
  if i < 20 then (b &&& c) ||| ((b ^^^ 4294967295) &&& d)
  else if i < 40 then (b ^^^ c) ^^^ d
  else if i < 60 then ((b &&& c) ||| (b &&& d)) ||| (c &&& d)
  else (b ^^^ c) ^^^ d

def sha1K (i : Nat) : Nat :=
  if i < 20 then 1518500249
  else if i < 40 then 1859775393
  else if i < 60 then 2400959708
  else 3395469782

structure SHA1State where
  h0 : Nat
  h1 : Nat
  h2 : Nat
  h3 : Nat
  h4 : Nat
  deriving DecidableEq, Repr

def sha1Round (w : Array Nat) (st : Nat × Nat × Nat × Nat × Nat) (i : Nat) :
    Nat × Nat × Nat × Nat × Nat :=
  let (a, b, c, d, e) := st
  let temp := (rotl32 5 a + sha1F i b c d + e + sha1K i + w.getD i 0) % UINT32_MOD
  (temp, a, rotl32 30 b, c, d)

def sha1Init : SHA1State :=
  ⟨1732584193, 4023233417, 2562383102, 271733878, 3285377520⟩

def sha1Compress (h : SHA1State) (block : List Nat) : SHA1State :=
  let w := sha1Expand 64 (Array.mk block)
  let fin := (List.range 80).foldl (sha1Round w) (h.h0, h.h1, h.h2, h.h3, h.h4)
  ⟨(h.h0 + fin.1) % UINT32_MOD, (h.h1 + fin.2.1) % UINT32_MOD,
   (h.h2 + fin.2.2.1) % UINT32_MOD, (h.h3 + fin.2.2.2.1) % UINT32_MOD,
   (h.h4 + fin.2.2.2.2) % UINT32_MOD⟩

def word2bytes (w : Nat) : List Nat :=
  [w >>> 24 % 256, w >>> 16 % 256, w >>> 8 % 256, w % 256]

def sha1 (msg : List Nat) : List Nat :=
  let h := (toBlocks (bytesToWords (sha1Pad msg))).foldl sha1Compress sha1Init
  word2bytes h.h0 ++ word2bytes h.h1 ++ word2bytes h.h2 ++
    word2bytes h.h3 ++ word2bytes h.h4

def charUtf8 (c : Char) : List Nat :=
  let n := c.toNat
  if n < 128 then [n]
  else if n < 2048 then [192 ||| (n >>> 6), 128 ||| (n &&& 63)]
  else if n < 65536 then
    [224 ||| (n >>> 12), 128 ||| ((n >>> 6) &&& 63), 128 ||| (n &&& 63)]
  else
    [240 ||| (n >>> 18), 128 ||| ((n >>> 12) &&& 63),
     128 ||| ((n >>> 6) &&& 63), 128 ||| (n &&& 63)]

def utf8Bytes (s : String) : List Nat := (s.data.map charUtf8).flatten

def hexVal (c : Char) : Nat :=
  if c.toNat ≥ 97 then c.toNat - 87
  else if c.toNat ≥ 65 then c.toNat - 55
  else c.toNat - 48

def hexPairsToBytes : List Char → List Nat
  | c1 :: c2 :: rest => (hexVal c1 * 16 + hexVal c2) :: hexPairsToBytes rest
  | _ => []

/-- Parse a dashed UUID string into its 16 bytes. -/
def uuidStringToBytes (s : String) : List Nat :=
  hexPairsToBytes (s.data.filter (fun c => c != '-'))

def hexDigitChar (n : Nat) : Char :=
  if n < 10 then Char.ofNat (48 + n) else Char.ofNat (87 + n)

def byteToHex (b : Nat) : List Char := [hexDigitChar (b / 16), hexDigitChar (b % 16)]

def bytesToHex (bs : List Nat) : List Char := (bs.map byteToHex).flatten

/-- Render 16 bytes as a dashed lowercase-hex UUID. -/
def formatUuid (bytes : List Nat) : String :=
  ⟨bytesToHex (bytes.take 4) ++ '-' :: bytesToHex ((bytes.drop 4).take 2) ++
   '-' :: bytesToHex ((bytes.drop 6).take 2) ++
   '-' :: bytesToHex ((bytes.drop 8).take 2) ++
   '-' :: bytesToHex ((bytes.drop 10).take 6)⟩

/-- Name-based UUID (version 5): SHA-1 of namespace bytes followed by the
UTF-8 name, with version and variant bits stamped in. -/
def uuidv5 (name : String) (namespaceStr : String) : String :=
  let digest := sha1 (uuidStringToBytes namespaceStr ++ utf8Bytes name)
  let bytes := digest.take 16
  let bytes := bytes.set 6 (((bytes.getD 6 0) &&& 15) ||| 80)
  let bytes := bytes.set 8 (((bytes.getD 8 0) &&& 63) ||| 128)
  formatUuid bytes

/-- `OPENCHAT_UUID_NAMESPACE` (openchatIds.ts line 8). -/
def OPENCHAT_UUID_NAMESPACE : String := "6ba7b810-9dad-11d1-80b4-00c04fd430c8"

/-- `makeRoomUuid` (openchatIds.ts lines 13-15). -/
def makeRoomUuid (chatKind identifier : String) : String :=
  uuidv5 ("openchat-room-" ++ chatKind ++ "-" ++ identifier) OPENCHAT_UUID_NAMESPACE

/-- `makeUserUuid` (openchatIds.ts lines 20-22). -/
def makeUserUuid (identifier : String) : String :=
  uuidv5 ("openchat-user-" ++ identifier) OPENCHAT_UUID_NAMESPACE

/-- `makeMessageUuid` (openchatIds.ts lines 27-29). -/
def makeMessageUuid (identifier : String) : String :=
  uuidv5 ("openchat-message-" ++ identifier) OPENCHAT_UUID_NAMESPACE

/-! ## Member-joined welcome (notify handler) -/

structure MemberDescriptor where
  descriptor : String
  shortLabel : String
  mention : String
  deriving DecidableEq, Repr

/-- The mention token for a raw user id. -/
def mentionToken (userId : String) : String := "@UserId(" ++ userId ++ ")"

/-- The shortened raw-identifier label used when no profile data exists:
`fallback.length <= 11 ? fallback : fallback.slice(0,5) + "..." + fallback.slice(-4)`. -/
def shortenedId (fallback : String) : String :=
  if fallback.length ≤ 11 then fallback
  else fallback.take 5 ++ "..." ++ String.mk (fallback.data.drop (fallback.length - 4))

/-- `describeUser` (notify handler): optional-chained trims, JS truthiness
(empty/absent coincide) for `username`/`displayName`. -/
def describeUser (profile : Option OpenChatUserProfile) (fallback : String) :
    MemberDescriptor :=
  let username := ((profile.bind (·.username)).map jsTrim).getD ""
  let displayName := ((profile.bind (·.displayName)).map jsTrim).getD ""
  let mention := mentionToken fallback
  let handle := if username != "" then some ("@" ++ username) else none
  match handle with
  | some h =>
    if displayName != "" then
      { descriptor := displayName ++ " (" ++ h ++ ")", shortLabel := displayName,
        mention := mention }
    else
      { descriptor := h, shortLabel := h, mention := mention }
  | none =>
    if displayName != "" then
      { descriptor := displayName, shortLabel := displayName, mention := mention }
    else
      let shortened := shortenedId fallback
      { descriptor := shortened, shortLabel := shortened, mention := mention }

/-- The generated-or-fallback welcome line of `handleMemberJoined`:
`genOut` is the model call's outcome (`none` = the call threw and was
caught, leaving the message empty; `some s` = it produced `s`, which the
handler trims); an empty message falls back to a canned greeting. -/
def welcomeMsgOf (genOut : Option String) (shortLabel : String) : String :=
  if (match genOut with | some s => jsTrim s | none => "") = "" then
    "Welcome to the chat, " ++ shortLabel ++ "! 👋"
  else
    match genOut with | some s => jsTrim s | none => ""

/-- The final welcome text of `handleMemberJoined`: the mention token is
prepended (and the result trimmed) when the message does not already
contain it. -/
def memberWelcomeText (genOut : Option String) (member : MemberDescriptor) : String :=
  if containsSub member.mention (welcomeMsgOf genOut member.shortLabel) then
    welcomeMsgOf genOut member.shortLabel
  else
    jsTrim (member.mention ++ " " ++ welcomeMsgOf genOut member.shortLabel)

/-- `handleMemberJoined` (notify handler): returns the welcome text the
handler attempts to send, or `none` when the event is not handled
(welcome disabled, wrong inner event kind, or unknown installation). -/
def handleMemberJoined (welcomeEnabled : Bool) (innerEventKind : String)
    (installation : Option OpenChatInstallation)
    (profile : Option OpenChatUserProfile) (genOut : Option String)
    (joinedUserId : String) : Option String :=
  if !welcomeEnabled || innerEventKind != "member_joined" then none
  else
    match installation with
    | none => none
    | some _ => some (memberWelcomeText genOut (describeUser profile joinedUserId))

/-! ## Message manager (`openchatMessageManager.ts`) -/

/-- `sanitizeText` (openchatMessageManager.ts lines 22-27): falsy input
yields `""`; otherwise NUL characters are removed and the result trimmed. -/
def sanitizeText (text : Option String) : String :=
  match text with
  | none => ""
  | some t =>
    if t = "" then ""
    else jsTrim (String.mk (t.data.filter (fun c => c != Char.ofNat 0)))

/-- Message content variants (`event.content`), with the fields the
placeholder builder consumes.  Captions are consumed through JS
truthiness, so `""` stands for an absent caption. -/
inductive OCMessageContent : Type
  | textContent (text : Option String)
  | imageContent (caption : String)
  | videoContent (caption : String)
  | audioContent (caption : String)
  | fileContent (name : String)
  | pollContent (numOptions : Nat)
  | otherContent (kind : String)
  deriving DecidableEq, Repr

/-- `buildPlaceholderForContent` (openchatMessageManager.ts lines 29-47). -/
def buildPlaceholderForContent : OCMessageContent → String
  | .textContent t => sanitizeText t
  | .imageContent caption =>
    "Received an image" ++ (if caption != "" then ": " ++ caption else "")
  | .videoContent caption =>
    "Received a video" ++ (if caption != "" then ": " ++ caption else "")
  | .audioContent caption =>
    "Received an audio clip" ++ (if caption != "" then ": " ++ caption else "")
  | .fileContent name => "Received a file: " ++ name
  | .pollContent numOptions =>
    "Received a poll with " ++ toString numOptions ++ " options."
  | .otherContent kind =>
    "Received " ++ String.map (fun c => if c = '_' then ' ' else c) kind ++ "."

/-- The fields of `chatEvent.event` the message manager inspects. -/
structure OCMessageEvent where
  deleted : Bool
  senderContextKind : Option String
  content : OCMessageContent
  sender : String
  repliesToEventIndex : Option Nat
  deriving DecidableEq, Repr

/-- Inner chat event (`chatEvent.event.kind` dispatch). -/
inductive BotChatInnerEvent : Type
  | message (event : OCMessageEvent)
  | memberJoined (userId : String)
  | otherEvent (kind : String)
  deriving DecidableEq, Repr

/-- The memory the manager hands to the runtime's message pipeline
(`runtime.messageService.handleMessage`), reduced to the identity and
content fields the claims are about. -/
structure PipelineCall where
  memoryId : String
  entityId : String
  roomId : String
  text : String
  deriving DecidableEq, Repr

/-- `OpenChatMessageManager.handleMessageEvent` (openchatMessageManager.ts
lines 52-146): `none` means the manager returned without forwarding
anything to the message pipeline (no memory created, no response sent). -/
def handleMessageEvent (messageServiceAvailable : Bool)
    (inner : BotChatInnerEvent) (metadata : OpenChatMessageMetadata) :
    Option PipelineCall :=
  match inner with
  | .message event =>
    if event.deleted then none
    else if event.senderContextKind = some "bot" then none
    else
      let textContent := buildPlaceholderForContent event.content
      if textContent = "" then none
      else
        let roomId := makeRoomUuid metadata.chatKind metadata.roomKey
        let senderId := makeUserUuid event.sender
        let incomingMessageId :=
          makeMessageUuid (metadata.chatId ++ "-" ++ (metadata.messageId.getD "undefined"))
        if !messageServiceAvailable then none
        else
          some { memoryId := incomingMessageId
                 entityId := senderId
                 roomId := roomId
                 text := textContent }
  | _ => none

/-! ## Helper lemmas for the ordered map -/

theorem OCMap.get_erase_self {α : Type} (m : OCMap α) (k : String) :
    OCMap.get (OCMap.erase m k) k = none := by
  unfold OCMap.get OCMap.erase
  have h : List.find? (fun p => p.1 == k) (List.filter (fun p => p.1 != k) m) = none := by
    rw [List.find?_eq_none]
    intro x hx
    have hx2 := (List.mem_filter.mp hx).2
    simp only [bne_iff_ne, ne_eq] at hx2
    simp only [beq_iff_eq]
    exact hx2
  rw [h]
  rfl

theorem OCMap.erase_of_no_key {α : Type} (m : OCMap α) (k : String)
    (h : OCMap.hasKey m k = false) : OCMap.erase m k = m := by
  unfold OCMap.hasKey at h
  unfold OCMap.erase
  rw [List.filter_eq_self]
  intro a ha
  have hf : List.find? (fun p => p.1 == k) m = none := by
    cases hrw : List.find? (fun p => p.1 == k) m with
    | none => rfl
    | some v => rw [hrw] at h; simp at h
  have hne := List.find?_eq_none.mp hf a ha
  simp only [beq_iff_eq] at hne
  simp only [bne_iff_ne, ne_eq]
  exact hne

theorem OCMap.get_set_of_no_key {α : Type} (m : OCMap α) (k : String) (v : α)
    (h : ∀ a ∈ m, (a.1 == k) = false) :
    OCMap.get (OCMap.set m k v) k = some v := by
  unfold OCMap.set OCMap.get
  have hany : List.any m (fun p => p.1 == k) = false := by
    rw [List.any_eq_false]
    intro x hx
    simp [h x hx]
  rw [if_neg (by simp [hany])]
  rw [List.find?_append]
  have hf : List.find? (fun p => p.1 == k) m = none :=
    List.find?_eq_none.mpr (fun x hx => by simp [h x hx])
  rw [hf]
  simp

theorem OCMap.mem_erase_keys {α : Type} (m : OCMap α) (k : String) :
    ∀ a ∈ OCMap.erase m k, (a.1 == k) = false := by
  intro a ha
  have hx2 := (List.mem_filter.mp ha).2
  simpa using hx2

theorem find?_map_set {α : Type} (m : OCMap α) (k : String) (v : α)
    (hany : List.any m (fun p => p.1 == k) = true) :
    List.find? (fun p => p.1 == k)
      (List.map (fun p => if p.1 == k then (k, v) else p) m) = some (k, v) := by
  induction m with
  | nil => simp at hany
  | cons a as ih =>
    simp only [List.map_cons]
    by_cases ha : (a.1 == k) = true
    · rw [if_pos ha, List.find?_cons_of_pos _ (by simp)]
    · rw [if_neg ha, List.find?_cons_of_neg _ (by simp [ha])]
      apply ih
      simp only [List.any_cons, ha, Bool.false_or] at hany
      exact hany

theorem OCMap.get_set_self {α : Type} (m : OCMap α) (k : String) (v : α) :
    OCMap.get (OCMap.set m k v) k = some v := by
  unfold OCMap.set OCMap.get
  by_cases hany : List.any m (fun p => p.1 == k) = true
  · rw [if_pos hany, find?_map_set m k v hany]
    rfl
  · rw [if_neg hany, List.find?_append]
    have hf : List.find? (fun p => p.1 == k) m = none := by
      rw [List.find?_eq_none]
      intro x hx hpx
      exact hany (List.any_eq_true.mpr ⟨x, hx, hpx⟩)
    rw [hf]
    simp

/-! ## Helper lemmas for `getProfile` -/

theorem getProfile_hit (cache : OCMap CachedProfile) (ttlMs : Nat) (sic : String)
    (gw : Option String) (uid : String) (now : Nat) (remote : LookupOutcome)
    (cached : CachedProfile) (hscope : gw.getD sic ≠ "") (huid : uid ≠ "")
    (hget : OCMap.get cache (cacheKey (gw.getD sic) uid) = some cached)
    (hfresh : now < cached.expiresAt) :
    getProfile cache ttlMs sic gw uid now remote =
      { result := some cached.profile, cache := cache, remoteCalled := false } := by
  unfold getProfile
  rw [if_neg (by simp [hscope, huid])]
  rw [hget]
  simp [hfresh]

theorem getProfile_store (cache : OCMap CachedProfile) (ttlMs : Nat) (sic : String)
    (gw : Option String) (uid : String) (now : Nat) (p : OpenChatUserProfile)
    (hscope : gw.getD sic ≠ "") (huid : uid ≠ "")
    (hstale : ∀ c, OCMap.get cache (cacheKey (gw.getD sic) uid) = some c →
      c.expiresAt ≤ now) :
    getProfile cache ttlMs sic gw uid now (LookupOutcome.returned (some p)) =
      { result := some p
        cache := OCMap.set cache (cacheKey (gw.getD sic) uid) ⟨p, now + ttlMs⟩
        remoteCalled := true } := by
  unfold getProfile
  rw [if_neg (by simp [hscope, huid])]
  cases hget : OCMap.get cache (cacheKey (gw.getD sic) uid) with
  | none => rfl
  | some c =>
    have hle := hstale c hget
    simp [Nat.not_lt.mpr hle]

theorem getProfile_error (cache : OCMap CachedProfile) (ttlMs : Nat) (sic : String)
    (gw : Option String) (uid : String) (now : Nat) (msg : String)
    (hscope : gw.getD sic ≠ "") (huid : uid ≠ "")
    (hstale : ∀ c, OCMap.get cache (cacheKey (gw.getD sic) uid) = some c →
      c.expiresAt ≤ now) :
    getProfile cache ttlMs sic gw uid now (LookupOutcome.threw msg) =
      { result := none, cache := cache, remoteCalled := true } := by
  unfold getProfile
  rw [if_neg (by simp [hscope, huid])]
  cases hget : OCMap.get cache (cacheKey (gw.getD sic) uid) with
  | none => rfl
  | some c =>
    have hle := hstale c hget
    simp [Nat.not_lt.mpr hle]

theorem getProfile_stale_remoteCalled (cache : OCMap CachedProfile) (ttlMs : Nat)
    (sic : String) (gw : Option String) (uid : String) (now : Nat)
    (remote : LookupOutcome) (hscope : gw.getD sic ≠ "") (huid : uid ≠ "")
    (hstale : ∀ c, OCMap.get cache (cacheKey (gw.getD sic) uid) = some c →
      c.expiresAt ≤ now) :
    (getProfile cache ttlMs sic gw uid now remote).remoteCalled = true := by
  unfold getProfile
  rw [if_neg (by simp [hscope, huid])]
  cases hget : OCMap.get cache (cacheKey (gw.getD sic) uid) with
  | none => cases remote with
    | threw m => rfl
    | returned o => cases o <;> rfl
  | some c =>
    have hle := hstale c hget
    cases remote with
    | threw m => simp [Nat.not_lt.mpr hle]
    | returned o => cases o <;> simp [Nat.not_lt.mpr hle]

/-! ## Claim theorems -/

/-- C6: `recordInstallation` followed by `recordUninstallation` on the
same location leaves the Registry without that location's key;
`recordUninstallation` on an absent key is a silent no-op; re-installing
after uninstalling restores an installation entry at that key. -/
theorem registry_install_uninstall (m : Registry) (location : InstallationLocation)
    (record : InstallationRecord) :
    OCMap.get (recordUninstallation (recordInstallation m location record) location)
      (getLocationKey location) = none ∧
    (OCMap.hasKey m (getLocationKey location) = false →
      recordUninstallation m location = m) ∧
    OCMap.get (recordInstallation (recordUninstallation m location) location record)
      (getLocationKey location) =
      some { location := location, scope := scopeFromLocation location, record := record } := by
  refine ⟨?_, ?_, ?_⟩
  · simpa [recordInstallation, recordUninstallation] using
      OCMap.get_erase_self (recordInstallation m location record) (getLocationKey location)
  · intro h
    simpa [recordUninstallation] using
      OCMap.erase_of_no_key m (getLocationKey location) h
  · simp only [recordInstallation, recordUninstallation]
    exact OCMap.get_set_of_no_key _ _ _ (OCMap.mem_erase_keys m (getLocationKey location))

/-- Witness for C6 at a concrete registry and location. -/
theorem registry_install_uninstall_witness :
    recordUninstallation ([] : Registry) (InstallationLocation.group "g1") = [] ∧
    OCMap.get
      (recordUninstallation
        (recordInstallation ([] : Registry) (InstallationLocation.group "g1")
          ⟨"https://gw", ⟨0⟩, ⟨31⟩⟩)
        (InstallationLocation.group "g1"))
      (getLocationKey (InstallationLocation.group "g1")) = none :=
  ⟨(registry_install_uninstall [] (InstallationLocation.group "g1")
      ⟨"https://gw", ⟨0⟩, ⟨31⟩⟩).2.1 rfl,
   (registry_install_uninstall [] (InstallationLocation.group "g1")
      ⟨"https://gw", ⟨0⟩, ⟨31⟩⟩).1⟩

/-- C2: the notification rejection callback swallows a rejection whose
derived reason text is exactly "Invalid scope" (no error raised) and, for
any other reason text, raises an error carrying exactly that reason. -/
theorem rejection_filtering (failure : NotifyFailure) :
    (rejectionErrorMessage failure = "Invalid scope" → rejectionOutcome failure = none) ∧
    (rejectionErrorMessage failure ≠ "Invalid scope" →
      rejectionOutcome failure = some (rejectionErrorMessage failure)) := by
  constructor
  · intro h
    simp [rejectionOutcome, h]
  · intro h
    simp [rejectionOutcome, h]

/-- Witness for C2: the benign reason is swallowed, every other raises. -/
theorem rejection_filtering_witness :
    rejectionOutcome ⟨FailureError.str "Invalid scope"⟩ = none ∧
    rejectionOutcome ⟨FailureError.str "boom"⟩ = some "boom" :=
  ⟨(rejection_filtering ⟨FailureError.str "Invalid scope"⟩).1 rfl,
   (rejection_filtering ⟨FailureError.str "boom"⟩).2 (by decide)⟩

/-- C7: `getProfile` serves a cached profile without a remote lookup while
`now < expiresAt`; otherwise it performs the remote batch lookup, stores a
successful result with `expiresAt = now + ttl` (default 15 minutes), and
returns "not found" instead of propagating a lookup error; consequently an
entry fetched at `t0` with ttl `T` is cache-served at `t0+T-1` and
refetched at `t0+T+1`. -/
theorem getProfile_cache_ttl :
    (∀ (cache : OCMap CachedProfile) (ttlMs : Nat) (sic : String) (gw : Option String)
        (uid : String) (now : Nat) (remote : LookupOutcome) (cached : CachedProfile),
      gw.getD sic ≠ "" → uid ≠ "" →
      OCMap.get cache (cacheKey (gw.getD sic) uid) = some cached →
      now < cached.expiresAt →
      getProfile cache ttlMs sic gw uid now remote =
        { result := some cached.profile, cache := cache, remoteCalled := false }) ∧
    (∀ (cache : OCMap CachedProfile) (ttlMs : Nat) (sic : String) (gw : Option String)
        (uid : String) (now : Nat) (p : OpenChatUserProfile),
      gw.getD sic ≠ "" → uid ≠ "" →
      (∀ c, OCMap.get cache (cacheKey (gw.getD sic) uid) = some c → c.expiresAt ≤ now) →
      getProfile cache ttlMs sic gw uid now (LookupOutcome.returned (some p)) =
        { result := some p
          cache := OCMap.set cache (cacheKey (gw.getD sic) uid)
            { profile := p, expiresAt := now + ttlMs }
          remoteCalled := true }) ∧
    (∀ (cache : OCMap CachedProfile) (ttlMs : Nat) (sic : String) (gw : Option String)
        (uid : String) (now : Nat) (msg : String),
      gw.getD sic ≠ "" → uid ≠ "" →
      (∀ c, OCMap.get cache (cacheKey (gw.getD sic) uid) = some c → c.expiresAt ≤ now) →
      getProfile cache ttlMs sic gw uid now (LookupOutcome.threw msg) =
        { result := none, cache := cache, remoteCalled := true }) ∧
    directoryTtl none = 1000 * 60 * 15 ∧
    (∀ (cache : OCMap CachedProfile) (T : Nat) (sic : String) (gw : Option String)
        (uid : String) (t0 : Nat) (p : OpenChatUserProfile) (remote2 remote3 : LookupOutcome),
      gw.getD sic ≠ "" → uid ≠ "" → 1 ≤ T →
      OCMap.get cache (cacheKey (gw.getD sic) uid) = none →
      ((getProfile (getProfile cache T sic gw uid t0 (LookupOutcome.returned (some p))).cache
          T sic gw uid (t0 + T - 1) remote2).remoteCalled = false ∧
       (getProfile (getProfile cache T sic gw uid t0 (LookupOutcome.returned (some p))).cache
          T sic gw uid (t0 + T - 1) remote2).result = some p ∧
       (getProfile (getProfile cache T sic gw uid t0 (LookupOutcome.returned (some p))).cache
          T sic gw uid (t0 + T + 1) remote3).remoteCalled = true)) := by
  refine ⟨getProfile_hit, getProfile_store, getProfile_error, rfl, ?_⟩
  intro cache T sic gw uid t0 p remote2 remote3 hs hu hT hmiss
  have hstore := getProfile_store cache T sic gw uid t0 p hs hu
    (fun c hc => by rw [hmiss] at hc; cases hc)
  rw [hstore]
  have hget2 : OCMap.get
      (OCMap.set cache (cacheKey (gw.getD sic) uid) { profile := p, expiresAt := t0 + T })
      (cacheKey (gw.getD sic) uid) = some { profile := p, expiresAt := t0 + T } :=
    OCMap.get_set_self cache (cacheKey (gw.getD sic) uid) { profile := p, expiresAt := t0 + T }
  have hhit := getProfile_hit _ T sic gw uid (t0 + T - 1) remote2 _ hs hu hget2
    (show t0 + T - 1 < t0 + T by omega)
  have hstale2 : ∀ c, OCMap.get
      (OCMap.set cache (cacheKey (gw.getD sic) uid) { profile := p, expiresAt := t0 + T })
      (cacheKey (gw.getD sic) uid) = some c → c.expiresAt ≤ t0 + T + 1 := by
    intro c hc
    rw [hget2] at hc
    cases hc
    show t0 + T ≤ t0 + T + 1
    omega
  have hcall := getProfile_stale_remoteCalled _ T sic gw uid (t0 + T + 1) remote3 hs hu hstale2
  rw [hhit]
  exact ⟨rfl, rfl, hcall⟩

/-- Witness for C7 at a concrete cache, gateway and clock. -/
theorem getProfile_cache_ttl_witness :
    getProfile [("gw:u1", { profile := ⟨"u1", some "alice", none⟩, expiresAt := 100 })]
      900000 "sic" (some "gw") "u1" 50 (LookupOutcome.threw "down") =
      { result := some ⟨"u1", some "alice", none⟩
        cache := [("gw:u1", { profile := ⟨"u1", some "alice", none⟩, expiresAt := 100 })]
        remoteCalled := false } :=
  getProfile_cache_ttl.1
    [("gw:u1", { profile := ⟨"u1", some "alice", none⟩, expiresAt := 100 })]
    900000 "sic" (some "gw") "u1" 50 (LookupOutcome.threw "down")
    { profile := ⟨"u1", some "alice", none⟩, expiresAt := 100 }
    (by decide) (by decide) rfl (by decide)

/-- C9: `lookupProfiles` drops every id that fails principal encoding and,
when no id encodes (including the empty input), returns the empty list
without issuing a remote query; any query that is issued carries exactly
the successfully encoded principals. -/
theorem lookupProfiles_drops_invalid :
    (∀ (principalToBytes : String → Option (List Nat))
        (decodeBytes : List Nat → Option String) (sic : String)
        (userIds : List String) (remote : QueryOutcome),
      userIds.filterMap principalToBytes = [] →
      lookupProfiles principalToBytes decodeBytes sic userIds remote =
        { outcome := Except.ok [], queriedBatch := none }) ∧
    (∀ (principalToBytes : String → Option (List Nat))
        (decodeBytes : List Nat → Option String) (sic : String)
        (userIds : List String) (remote : QueryOutcome) (q : List (List Nat)),
      (lookupProfiles principalToBytes decodeBytes sic userIds remote).queriedBatch = some q →
      q = userIds.filterMap principalToBytes) := by
  constructor
  · intro ptb db sic userIds remote h
    unfold lookupProfiles
    rw [h]
    rfl
  · intro ptb db sic userIds remote q h
    unfold lookupProfiles at h
    by_cases he : (userIds.filterMap ptb).isEmpty = true
    · rw [if_pos he] at h
      cases h
    · rw [if_neg he] at h
      cases remote with
      | rejected => cases h; rfl
      | replied o => cases o with
        | none => cases h; rfl
        | some users => cases h; rfl

/-- Witness for C9: all-invalid input and empty input both skip the query. -/
theorem lookupProfiles_drops_invalid_witness :
    lookupProfiles (fun _ => none) (fun _ => some "u") "sic" ["bad1", "bad2"]
        QueryOutcome.rejected = { outcome := Except.ok [], queriedBatch := none } ∧
    lookupProfiles (fun s => some (utf8Bytes s)) (fun _ => none) "sic" []
        QueryOutcome.rejected = { outcome := Except.ok [], queriedBatch := none } :=
  ⟨lookupProfiles_drops_invalid.1 (fun _ => none) (fun _ => some "u") "sic"
      ["bad1", "bad2"] QueryOutcome.rejected rfl,
   lookupProfiles_drops_invalid.1 (fun s => some (utf8Bytes s)) (fun _ => none) "sic"
      [] QueryOutcome.rejected rfl⟩

/-- C10: `handleMessageEvent` forwards nothing to the message pipeline when
the inner event kind is not "message", when the message is deleted, when
the sender context is a bot, or when the derived text content is empty. -/
theorem message_event_guards :
    (∀ (avail : Bool) (userId : String) (metadata : OpenChatMessageMetadata),
      handleMessageEvent avail (BotChatInnerEvent.memberJoined userId) metadata = none) ∧
    (∀ (avail : Bool) (kind : String) (metadata : OpenChatMessageMetadata),
      handleMessageEvent avail (BotChatInnerEvent.otherEvent kind) metadata = none) ∧
    (∀ (avail : Bool) (event : OCMessageEvent) (metadata : OpenChatMessageMetadata),
      event.deleted = true →
      handleMessageEvent avail (BotChatInnerEvent.message event) metadata = none) ∧
    (∀ (avail : Bool) (event : OCMessageEvent) (metadata : OpenChatMessageMetadata),
      event.senderContextKind = some "bot" →
      handleMessageEvent avail (BotChatInnerEvent.message event) metadata = none) ∧
    (∀ (avail : Bool) (event : OCMessageEvent) (metadata : OpenChatMessageMetadata),
      buildPlaceholderForContent event.content = "" →
      handleMessageEvent avail (BotChatInnerEvent.message event) metadata = none) := by
  refine ⟨fun _ _ _ => rfl, fun _ _ _ => rfl, ?_, ?_, ?_⟩
  · intro avail event metadata h
    simp [handleMessageEvent, h]
  · intro avail event metadata h
    cases hd : event.deleted <;> simp [handleMessageEvent, hd, h]
  · intro avail event metadata h
    cases hd : event.deleted <;>
      by_cases hb : event.senderContextKind = some "bot" <;>
        simp [handleMessageEvent, hd, hb, h]

/-- Witness for C10: a deleted message, a bot-sent message, and a
whitespace-only text message are all dropped. -/
theorem message_event_guards_witness :
    handleMessageEvent true
      (BotChatInnerEvent.message
        ⟨true, none, OCMessageContent.textContent (some "hi"), "sender", none⟩)
      ⟨"group", "g", "group:g", "g", some "1", none, none, some "gw"⟩ = none ∧
    handleMessageEvent true
      (BotChatInnerEvent.message
        ⟨false, some "bot", OCMessageContent.textContent (some "hi"), "sender", none⟩)
      ⟨"group", "g", "group:g", "g", some "1", none, none, some "gw"⟩ = none ∧
    handleMessageEvent true
      (BotChatInnerEvent.message
        ⟨false, none, OCMessageContent.textContent (some "   "), "sender", none⟩)
      ⟨"group", "g", "group:g", "g", some "1", none, none, some "gw"⟩ = none :=
  ⟨message_event_guards.2.2.1 true
      ⟨true, none, OCMessageContent.textContent (some "hi"), "sender", none⟩
      ⟨"group", "g", "group:g", "g", some "1", none, none, some "gw"⟩ rfl,
   message_event_guards.2.2.2.1 true
      ⟨false, some "bot", OCMessageContent.textContent (some "hi"), "sender", none⟩
      ⟨"group", "g", "group:g", "g", some "1", none, none, some "gw"⟩ rfl,
   message_event_guards.2.2.2.2 true
      ⟨false, none, OCMessageContent.textContent (some "   "), "sender", none⟩
      ⟨"group", "g", "group:g", "g", some "1", none, none, some "gw"⟩ (by decide)⟩

/-- C5: when no metadata candidate and no preferred location key matches a
registered installation, the resolver falls back to the first installation
in insertion order; on an empty Registry it returns `none` rather than
throwing. -/
theorem resolver_fallback :
    (∀ (message : MessageInput) (state : StateInput) (options : OptionsInput),
      resolveOpenChatContext (some []) message state options = none) ∧
    (∀ (message : MessageInput) (state : StateInput) (options : OptionsInput)
        (k : String) (inst : OpenChatInstallation) (rest : Registry),
      (∀ m, extractMetadata message state options = some m →
        OCMap.get ((k, inst) :: rest) m.locationKey = none) →
      (∀ pk, options.openchatLocationKey.orElse (fun _ => state.openchatLocationKey) =
          some pk → OCMap.hasKey ((k, inst) :: rest) pk = false) →
      k ≠ "" →
      (resolveOpenChatContext (some ((k, inst) :: rest)) message state options).map
        (fun c => (c.locationKey, c.installation)) = some (k, inst)) := by
  constructor
  · intro message state options
    rfl
  · intro message state options k inst rest hmeta hpref hk
    unfold resolveOpenChatContext
    cases hm : extractMetadata message state options with
    | none =>
      cases hp : options.openchatLocationKey.orElse (fun _ => state.openchatLocationKey) with
      | none => simp [hm, hp, OCMap.firstEntry, OCMap.isEmpty, hk]
      | some pk =>
        have h2 := hpref pk hp
        simp [hm, hp, h2, OCMap.firstEntry, OCMap.isEmpty, hk]
    | some m =>
      have h1 := hmeta m hm
      by_cases hlk : m.locationKey = "" <;>
        cases hp : options.openchatLocationKey.orElse (fun _ => state.openchatLocationKey) with
      | none => simp [hm, hp, hlk, h1, OCMap.firstEntry, OCMap.isEmpty, hk]
      | some pk =>
        have h2 := hpref pk hp
        simp [hm, hp, hlk, h1, h2, OCMap.firstEntry, OCMap.isEmpty, hk]

/-- Witness for C5: installations inserted in order A, B with no usable
metadata resolve to A; the empty Registry resolves to nothing. -/
theorem resolver_fallback_witness :
    resolveOpenChatContext (some []) ⟨none⟩ ⟨none, none⟩ ⟨none, none, none⟩ = none ∧
    (resolveOpenChatContext
      (some [("group:a", ⟨InstallationLocation.group "a",
                ActionScope.chatScope (InstallationLocation.group "a"), ⟨"gwA", ⟨0⟩, ⟨1⟩⟩⟩),
             ("group:b", ⟨InstallationLocation.group "b",
                ActionScope.chatScope (InstallationLocation.group "b"), ⟨"gwB", ⟨0⟩, ⟨2⟩⟩⟩)])
      ⟨none⟩ ⟨none, none⟩ ⟨none, none, none⟩).map
        (fun c => (c.locationKey, c.installation)) =
      some ("group:a", ⟨InstallationLocation.group "a",
        ActionScope.chatScope (InstallationLocation.group "a"), ⟨"gwA", ⟨0⟩, ⟨1⟩⟩⟩) :=
  ⟨resolver_fallback.1 ⟨none⟩ ⟨none, none⟩ ⟨none, none, none⟩,
   resolver_fallback.2 ⟨none⟩ ⟨none, none⟩ ⟨none, none, none⟩ "group:a"
     ⟨InstallationLocation.group "a",
       ActionScope.chatScope (InstallationLocation.group "a"), ⟨"gwA", ⟨0⟩, ⟨1⟩⟩⟩
     [("group:b", ⟨InstallationLocation.group "b",
       ActionScope.chatScope (InstallationLocation.group "b"), ⟨"gwB", ⟨0⟩, ⟨2⟩⟩⟩)]
     (fun m hm => by simp [extractMetadata] at hm)
     (fun pk hp => by simp [Option.orElse] at hp)
     (by decide)⟩

/-- C1: the resolver examines the option, state and message metadata
candidates in that priority order, adopting a candidate's location key
only when it resolves in the Installation Registry; with all three
candidates present carrying distinct Registry-resolvable keys, it picks
the option candidate's key, its registered installation, and keeps the
option candidate as the context metadata. -/
theorem resolver_priority (registry : Registry) (message : MessageInput)
    (state : StateInput) (options : OptionsInput)
    (m1 m2 m3 : OpenChatMessageMetadata) (inst1 : OpenChatInstallation)
    (hopt : options.openchatMetadata = some m1)
    (hstate : state.openchatMetadata = some m2)
    (hmsg : message.openchatMetadata = some m3)
    (h1 : m1.locationKey ≠ "") (h2 : m2.locationKey ≠ "") (h3 : m3.locationKey ≠ "")
    (hd12 : m1.locationKey ≠ m2.locationKey) (hd13 : m1.locationKey ≠ m3.locationKey)
    (hd23 : m2.locationKey ≠ m3.locationKey)
    (hr1 : OCMap.get registry m1.locationKey = some inst1)
    (hr2 : (OCMap.get registry m2.locationKey).isSome = true)
    (hr3 : (OCMap.get registry m3.locationKey).isSome = true) :
    (resolveOpenChatContext (some registry) message state options).map
      (fun c => (c.locationKey, c.installation, c.metadata)) =
      some (m1.locationKey, inst1, m1) := by
  have hne : OCMap.isEmpty registry = false := by
    cases registry with
    | nil => simp [OCMap.get, List.find?] at hr1
    | cons a as => rfl
  have hextract : extractMetadata message state options = some m1 := by
    unfold extractMetadata
    rw [hopt]
    simp [h1]
  unfold resolveOpenChatContext
  rw [hextract]
  simp [hne, h1, hr1]

/-- Witness for C1: three candidates with distinct resolvable keys; the
option candidate's key wins. -/
theorem resolver_priority_witness :
    (resolveOpenChatContext
      (some [("group:a", ⟨InstallationLocation.group "a",
                ActionScope.chatScope (InstallationLocation.group "a"), ⟨"gwA", ⟨0⟩, ⟨1⟩⟩⟩),
             ("group:b", ⟨InstallationLocation.group "b",
                ActionScope.chatScope (InstallationLocation.group "b"), ⟨"gwB", ⟨0⟩, ⟨2⟩⟩⟩),
             ("group:c", ⟨InstallationLocation.group "c",
                ActionScope.chatScope (InstallationLocation.group "c"), ⟨"gwC", ⟨0⟩, ⟨3⟩⟩⟩)])
      ⟨some ⟨"group", "c", "group:c", "c", some "3", none, none, some "gwC"⟩⟩
      ⟨some ⟨"group", "b", "group:b", "b", some "2", none, none, some "gwB"⟩, none⟩
      ⟨some ⟨"group", "a", "group:a", "a", some "1", none, none, some "gwA"⟩, none, none⟩).map
        (fun c => (c.locationKey, c.installation, c.metadata)) =
      some ("group:a",
        ⟨InstallationLocation.group "a",
          ActionScope.chatScope (InstallationLocation.group "a"), ⟨"gwA", ⟨0⟩, ⟨1⟩⟩⟩,
        ⟨"group", "a", "group:a", "a", some "1", none, none, some "gwA"⟩) :=
  resolver_priority _ _ _ _
    ⟨"group", "a", "group:a", "a", some "1", none, none, some "gwA"⟩
    ⟨"group", "b", "group:b", "b", some "2", none, none, some "gwB"⟩
    ⟨"group", "c", "group:c", "c", some "3", none, none, some "gwC"⟩
    ⟨InstallationLocation.group "a",
      ActionScope.chatScope (InstallationLocation.group "a"), ⟨"gwA", ⟨0⟩, ⟨1⟩⟩⟩
    rfl rfl rfl (by decide) (by decide) (by decide) (by decide) (by decide) (by decide)
    rfl rfl rfl

/-! ## Helper lemmas for the welcome-mention property -/

theorem prefix_trim_append (m r : List Char) (hne : m ≠ [])
    (hhead : isWS (m.head hne) = false) (hlast : isWS (m.getLast hne) = false) :
    m <+: ((m ++ r).dropWhile isWS).rdropWhile isWS := by
  have h1 : (m ++ r).dropWhile isWS = m ++ r := by
    cases m with
    | nil => exact absurd rfl hne
    | cons c cs =>
      have hc : isWS c = false := hhead
      simp only [List.cons_append]
      rw [List.dropWhile_cons_of_neg]
      simp [hc]
  rw [h1]
  have h2 : List.rdropWhile isWS (m ++ r) =
      List.reverse (List.dropWhile isWS (r.reverse ++ m.reverse)) := by
    simp only [List.rdropWhile, List.reverse_append]
  show m <+: List.rdropWhile isWS (m ++ r)
  rw [h2, List.dropWhile_append]
  by_cases he : ((r.reverse).dropWhile isWS).isEmpty = true
  · rw [if_pos he]
    have h3 : List.rdropWhile isWS m = m := by
      rw [List.rdropWhile_eq_self_iff]
      intro hl hcon
      have hsame : m.getLast hl = m.getLast hne := rfl
      rw [hsame, hlast] at hcon
      cases hcon
    show m <+: List.rdropWhile isWS m
    rw [h3]
  · rw [if_neg he, List.reverse_append, List.reverse_reverse]
    exact List.prefix_append m _

theorem mention_infix_trim (u w : String) :
    containsSub (mentionToken u) (jsTrim (mentionToken u ++ " " ++ w)) = true := by
  have hm : (mentionToken u).data = ("@UserId(".data ++ u.data) ++ [')'] := by
    show (("@UserId(" ++ u) ++ ")").data = _
    simp [String.data_append]
  have hm2 : (mentionToken u).data = '@' :: ("UserId(".data ++ u.data ++ [')']) := by
    rw [hm]
    rfl
  have hne : (mentionToken u).data ≠ [] := by
    rw [hm2]
    simp
  have hhead : isWS ((mentionToken u).data.head hne) = false := by
    have hq : (mentionToken u).data.head? = some '@' := by
      rw [hm2]
      rfl
    rw [List.head?_eq_head hne] at hq
    cases hq
    rfl
  have hlast : isWS ((mentionToken u).data.getLast hne) = false := by
    have hq : (mentionToken u).data.getLast? = some ')' := by
      rw [hm]
      exact List.getLast?_concat _
    rw [List.getLast?_eq_getLast _ hne] at hq
    injection hq with hq2
    rw [hq2]
    rfl
  unfold containsSub
  apply decide_eq_true
  have hdata : (jsTrim (mentionToken u ++ " " ++ w)).data =
      (((mentionToken u).data ++ (" ".data ++ w.data)).dropWhile isWS).rdropWhile isWS := by
    simp [jsTrim, String.data_append, List.append_assoc]
  rw [hdata]
  exact List.IsPrefix.isInfix (prefix_trim_append _ _ hne hhead hlast)

theorem describeUser_mention (profile : Option OpenChatUserProfile) (fallback : String) :
    (describeUser profile fallback).mention = mentionToken fallback := by
  simp only [describeUser]
  repeat' split
  all_goals rfl

/-- C8: every handled member_joined event (welcome enabled, installation
known) produces a welcome text containing the mention token
"@UserId(<raw id>)" for the joining user, whatever the generator produced
(including empty output and generation failure); and with no resolvable
profile the displayed label is the shortened raw identifier. -/
theorem member_welcome_mention :
    (∀ (welcomeEnabled : Bool) (innerEventKind : String)
        (installation : Option OpenChatInstallation)
        (profile : Option OpenChatUserProfile) (genOut : Option String)
        (joinedUserId txt : String),
      handleMemberJoined welcomeEnabled innerEventKind installation profile genOut
        joinedUserId = some txt →
      containsSub (mentionToken joinedUserId) txt = true) ∧
    (∀ fallback : String,
      (describeUser none fallback).shortLabel = shortenedId fallback ∧
      (describeUser none fallback).descriptor = shortenedId fallback) := by
  constructor
  · intro we kind inst profile genOut uid txt h
    unfold handleMemberJoined at h
    split at h
    · exact Option.noConfusion h
    · cases inst with
      | none => exact Option.noConfusion h
      | some i =>
        injection h with h2
        subst h2
        unfold memberWelcomeText
        by_cases hc : containsSub (describeUser profile uid).mention
            (welcomeMsgOf genOut (describeUser profile uid).shortLabel) = true
        · rw [if_pos hc]
          rw [describeUser_mention profile uid] at hc
          exact hc
        · rw [if_neg hc, describeUser_mention profile uid]
          exact mention_infix_trim uid _
  · intro fallback
    exact ⟨rfl, rfl⟩

/-- Witness for C8: a member_joined for a user with no profile and a
failed generation still yields a text containing the mention token. -/
theorem member_welcome_mention_witness :
    containsSub (mentionToken "a1b2c3d4e5f6")
      (memberWelcomeText none (describeUser none "a1b2c3d4e5f6")) = true ∧
    (describeUser none "a1b2c3d4e5f6").shortLabel = shortenedId "a1b2c3d4e5f6" :=
  ⟨member_welcome_mention.1 true "member_joined"
      (some ⟨InstallationLocation.group "g",
        ActionScope.chatScope (InstallationLocation.group "g"), ⟨"gw", ⟨0⟩, ⟨1⟩⟩⟩)
      none none "a1b2c3d4e5f6"
      (memberWelcomeText none (describeUser none "a1b2c3d4e5f6")) rfl,
   (member_welcome_mention.2 "a1b2c3d4e5f6").1⟩

/-- C3 counterexample: in the resolver's merge expression
(`{ ...metadata, ...built, locationKey }` composed with
`buildMetadataFromInstallation`), the synthesized chat kind and room key
override the found metadata's explicit non-empty values, contradicting
"explicit non-empty fields win over the synthesized ones". -/
theorem metadata_merge_counterexample :
    (spreadMergeMetadata
      ⟨"direct", "other", "", "r0", some "m0", none, none, some "gwX"⟩
      (buildMetadataFromInstallation "group:g"
        ⟨InstallationLocation.group "g",
          ActionScope.chatScope (InstallationLocation.group "g"), ⟨"gwG", ⟨0⟩, ⟨1⟩⟩⟩
        (some ⟨"direct", "other", "", "r0", some "m0", none, none, some "gwX"⟩))
      "group:g").chatKind = "group" ∧
    (spreadMergeMetadata
      ⟨"direct", "other", "", "r0", some "m0", none, none, some "gwX"⟩
      (buildMetadataFromInstallation "group:g"
        ⟨InstallationLocation.group "g",
          ActionScope.chatScope (InstallationLocation.group "g"), ⟨"gwG", ⟨0⟩, ⟨1⟩⟩⟩
        (some ⟨"direct", "other", "", "r0", some "m0", none, none, some "gwX"⟩))
      "group:g").roomKey = "g" ∧
    ("direct" : String) ≠ "group" ∧ ("r0" : String) ≠ "g" :=
  ⟨rfl, rfl, by decide, by decide⟩

/-- C3 (amended): a metadata object found among the candidates always
carries a non-empty location key, so the resolver's merge branch cannot
execute; when no metadata object was found the resolver synthesizes the
complete metadata from the installation (chat kind, chat id, room key
with no thread); in the merge expression itself the synthesized chatKind,
chatId and roomKey override the found metadata's values, while the found
metadata's non-nullish messageId, apiGateway, threadId and
replyToMessageId survive through the overrides parameter and the location
key is force-set. -/
theorem metadata_synthesis :
    (∀ (message : MessageInput) (state : StateInput) (options : OptionsInput)
        (m : OpenChatMessageMetadata),
      extractMetadata message state options = some m → m.locationKey ≠ "") ∧
    (∀ (registry : Registry) (message : MessageInput) (state : StateInput)
        (options : OptionsInput) (ctx : OpenChatResolvedContext),
      extractMetadata message state options = none →
      resolveOpenChatContext (some registry) message state options = some ctx →
      ctx.metadata = buildMetadataFromInstallation ctx.locationKey ctx.installation none) ∧
    (∀ (k : String) (inst : OpenChatInstallation),
      buildMetadataFromInstallation k inst none =
        { chatKind := getChatKindFromLocation inst.location
          chatId := describeLocation inst.location
          locationKey := k
          roomKey := describeLocation inst.location
          messageId := some ""
          threadId := none
          replyToMessageId := none
          apiGateway := some inst.record.apiGateway }) ∧
    (∀ (m : OpenChatMessageMetadata) (k : String) (inst : OpenChatInstallation),
      spreadMergeMetadata m (buildMetadataFromInstallation k inst (some m)) k =
        { chatKind := getChatKindFromLocation inst.location
          chatId := describeLocation inst.location
          locationKey := k
          roomKey := getRoomKeyFromLocation inst.location m.threadId
          messageId := some (m.messageId.getD "")
          threadId := m.threadId
          replyToMessageId := m.replyToMessageId
          apiGateway := some (m.apiGateway.getD inst.record.apiGateway) }) := by
  refine ⟨?_, ?_, ?_, ?_⟩
  · intro message state options m h
    unfold extractMetadata at h
    have hp := List.find?_some h
    simpa using hp
  · intro registry message state options ctx hm hres
    unfold resolveOpenChatContext at hres
    simp only [hm] at hres
    repeat' split at hres
    all_goals first
      | exact Option.noConfusion hres
      | (injection hres with h2; subst h2; rfl)
  · intro k inst
    rfl
  · intro m k inst
    rfl

/-- Witness for C3: concrete inputs exercising the non-empty-key fact and
the synthesized-from-installation branch. -/
theorem metadata_synthesis_witness :
    ("group:k" : String) ≠ "" ∧
    ({ metadata := buildMetadataFromInstallation "group:a"
         ⟨InstallationLocation.group "a",
           ActionScope.chatScope (InstallationLocation.group "a"), ⟨"gwA", ⟨0⟩, ⟨1⟩⟩⟩ none
       installation := ⟨InstallationLocation.group "a",
         ActionScope.chatScope (InstallationLocation.group "a"), ⟨"gwA", ⟨0⟩, ⟨1⟩⟩⟩
       locationKey := "group:a"
       client := { scope := ActionScope.chatScope (InstallationLocation.group "a")
                   apiGatewayUrl := "gwA"
                   permissions := ⟨1⟩ } } : OpenChatResolvedContext).metadata =
      buildMetadataFromInstallation "group:a"
        ⟨InstallationLocation.group "a",
          ActionScope.chatScope (InstallationLocation.group "a"), ⟨"gwA", ⟨0⟩, ⟨1⟩⟩⟩ none :=
  ⟨metadata_synthesis.1 ⟨some ⟨"group", "k", "group:k", "k", some "1", none, none, none⟩⟩
      ⟨none, none⟩ ⟨none, none, none⟩
      ⟨"group", "k", "group:k", "k", some "1", none, none, none⟩ rfl,
   metadata_synthesis.2.1 [("group:a",
       ⟨InstallationLocation.group "a",
         ActionScope.chatScope (InstallationLocation.group "a"), ⟨"gwA", ⟨0⟩, ⟨1⟩⟩⟩)]
     ⟨none⟩ ⟨none, none⟩ ⟨none, none, none⟩ _ rfl rfl⟩

set_option maxRecDepth 10000

/-- C4 counterexample: the dash-delimited name construction is ambiguous,
so the distinct pairs ("a-b","c") and ("a","b-c") hash the same name
string and `makeRoomUuid` collides on them. -/
theorem identity_mapper_collision :
    makeRoomUuid "a-b" "c" = makeRoomUuid "a" "b-c" ∧
    ("a-b", "c") ≠ (("a", "b-c") : String × String) :=
  ⟨rfl, by decide⟩

/-- C4 (amended): the identity mappers are deterministic; for unequal
pairs with the same chat kind the hashed name strings differ, and in
particular `makeRoomUuid "group" "g1" ≠ makeRoomUuid "group" "g2"`;
unequal pairs may however collide when the dash-delimited concatenation is
ambiguous. -/
theorem identity_mapper_determinism :
    (∀ k i k2 i2 : String, k = k2 → i = i2 → makeRoomUuid k i = makeRoomUuid k2 i2) ∧
    (∀ i i2 : String, i = i2 → makeUserUuid i = makeUserUuid i2) ∧
    (∀ i i2 : String, i = i2 → makeMessageUuid i = makeMessageUuid i2) ∧
    (∀ k i i2 : String, i ≠ i2 →
      ("openchat-room-" ++ k ++ "-" ++ i) ≠ ("openchat-room-" ++ k ++ "-" ++ i2)) ∧
    makeRoomUuid "group" "g1" ≠ makeRoomUuid "group" "g2" := by
  refine ⟨?_, ?_, ?_, ?_, ?_⟩
  · intro k i k2 i2 hk hi
    rw [hk, hi]
  · intro i i2 hi
    rw [hi]
  · intro i i2 hi
    rw [hi]
  · intro k i i2 hne h
    apply hne
    have hd := congrArg String.data h
    simp only [String.data_append] at hd
    exact String.ext (List.append_cancel_left hd)
  · decide

/-- Witness for C4 at concrete kinds and identifiers. -/
theorem identity_mapper_determinism_witness :
    makeRoomUuid "group" "g1" = makeRoomUuid "group" "g1" ∧
    ("openchat-room-" ++ "group" ++ "-" ++ "g1") ≠
      ("openchat-room-" ++ "group" ++ "-" ++ "g2") :=
  ⟨identity_mapper_determinism.1 "group" "g1" "group" "g1" rfl rfl,
   identity_mapper_determinism.2.2.2.1 "group" "g1" "g2" (by decide)⟩

end OpenChatPlugin
